import Mathlib

/-! # docdb: IAM-authenticated DocumentDB demo (`main.go`)

A shallow embedding of `main.go`.  The program is glue around three external
collaborators (the AWS SDK, the MongoDB driver and the Go standard library).
Their observable outcomes are collected in a `World`; the program itself is
embedded as functions over a `World` that produce a trace of events and either
return or stop the process through `log.Fatal`.
-/

namespace Docdb

/-! ## Go values -/

/-- A non-nil Go `error` value, identified with its message. -/
abbrev GoErr := String

/-- Contents of a file (`[]byte`). -/
abbrev Bytes := List Nat

/-- A parsed X.509 certificate, identified with its raw encoding. -/
abbrev Cert := String

/-- The process environment: the value bound to each variable name, if any. -/
abbrev Environ := String → Option String

/-- `os.Getenv`: the value of the variable, and the empty string when it is not set. -/
def os_Getenv (env : Environ) (key : String) : String :=
  match env key with
  | some v => v
  | none => ""

/-! ## `options.Credential` and `makeCred` -/

/-- The driver constant `auth.MongoDBAWS`. -/
def auth_MongoDBAWS : String := "MONGODB-AWS"

/-- `options.Credential` of the MongoDB driver.  A Go map that is `nil` is `none`. -/
structure Credential where
  AuthMechanism : String := ""
  AuthMechanismProperties : Option (List (String × String)) := none
  AuthSource : String := ""
  Username : String := ""
  Password : String := ""
  PasswordSet : Bool := false
  deriving DecidableEq, Repr

/-- `makeCred` (main.go, lines 89-102). -/
def makeCred (env : Environ) : Credential :=
  let cred : Credential :=
    { AuthMechanism := auth_MongoDBAWS
      AuthSource := "$external"
      Username := os_Getenv env "AWS_ACCESS_KEY_ID"
      Password := os_Getenv env "AWS_SECRET_ACCESS_KEY" }
  let token := os_Getenv env "AWS_SESSION_TOKEN"
  if token ≠ "" then
    { cred with AuthMechanismProperties := some [("AWS_SESSION_TOKEN", token)] }
  else
    cred


/-! ## `crypto/x509`, `crypto/tls` and `makeTLSConfig` -/

/-- `x509.CertPool`: a set of certificates, kept in insertion order. -/
structure CertPool where
  certs : List Cert := []
  deriving DecidableEq, Repr

/-- `x509.NewCertPool`: a new, empty pool. -/
def x509_NewCertPool : CertPool := { certs := [] }

/-- `(*CertPool).AddCert`: adds a certificate unless the pool already holds it. -/
def CertPool.AddCert (s : CertPool) (c : Cert) : CertPool :=
  if c ∈ s.certs then s else { certs := s.certs ++ [c] }

/-- `(*CertPool).AppendCertsFromPEM`: adds every certificate found in the PEM
data and reports whether any was found.  The PEM and X.509 decoding belongs to
the standard library and is the parameter `pemCerts`. -/
def CertPool.AppendCertsFromPEM (pemCerts : Bytes → List Cert) (s : CertPool)
    (pemData : Bytes) : CertPool × Bool :=
  ((pemCerts pemData).foldl CertPool.AddCert s, !(pemCerts pemData).isEmpty)

/-- `tls.Config`, the fields that hold data; each has Go's zero value unless set.
A `nil` pool is `none`. -/
structure TLSConfig where
  Certificates : List Cert := []
  RootCAs : Option CertPool := none
  NextProtos : List String := []
  ServerName : String := ""
  ClientCAs : Option CertPool := none
  InsecureSkipVerify : Bool := false
  MinVersion : Nat := 0
  MaxVersion : Nat := 0
  deriving DecidableEq, Repr

/-- The check a TLS client makes of the certificate a server presents, as the
documentation of `tls.Config` describes it: no check with `InsecureSkipVerify`;
otherwise the certificate has to chain to a member of `RootCAs`, and to a member
of the host's root set only when `RootCAs` is `nil`.  The chain relation and
the host's root set are parameters. -/
def serverTrusted (chainsTo : Cert → Cert → Bool) (hostRoots : List Cert)
    (cfg : TLSConfig) (leaf : Cert) : Bool :=
  if cfg.InsecureSkipVerify then true
  else
    match cfg.RootCAs with
    | none => hostRoots.any (chainsTo leaf)
    | some pool => pool.certs.any (chainsTo leaf)

/-! ## `options.ClientOptions` -/

/-- `options.ClientOptions` of the MongoDB driver, the fields this program touches. -/
structure ClientOptions where
  uri : String := ""
  Auth : Option Credential := none
  Direct : Option Bool := none
  TLSConfig : Option TLSConfig := none
  deriving DecidableEq, Repr

/-- The settings `ApplyURI` reads out of a connection string; `none` where the
string does not give the setting. -/
structure ConnString where
  Auth : Option Credential := none
  Direct : Option Bool := none
  TLSConfig : Option TLSConfig := none
  deriving DecidableEq, Repr

/-- `options.Client()`: empty options. -/
def options_Client : ClientOptions := {}

/-- `(*ClientOptions).ApplyURI`: records the URI and every setting the
connection string gives.  The connection-string parser belongs to the driver and
is the parameter `parse`. -/
def ClientOptions.ApplyURI (parse : String → ConnString) (c : ClientOptions)
    (uri : String) : ClientOptions :=
  { uri := uri
    Auth := match (parse uri).Auth with
      | some a => some a
      | none => c.Auth
    Direct := match (parse uri).Direct with
      | some d => some d
      | none => c.Direct
    TLSConfig := match (parse uri).TLSConfig with
      | some t => some t
      | none => c.TLSConfig }

/-- `(*ClientOptions).SetDirect`. -/
def ClientOptions.SetDirect (c : ClientOptions) (b : Bool) : ClientOptions :=
  { c with Direct := some b }

/-- `(*ClientOptions).SetAuth`. -/
def ClientOptions.SetAuth (c : ClientOptions) (auth : Credential) : ClientOptions :=
  { c with Auth := some auth }

/-- `(*ClientOptions).SetTLSConfig`. -/
def ClientOptions.SetTLSConfig (c : ClientOptions) (cfg : Docdb.TLSConfig) : ClientOptions :=
  { c with TLSConfig := some cfg }

/-! ## The world outside the program -/

/-- `sts.GetCallerIdentityOutput`; a `*string` that is `nil` is `none`. -/
structure GetCallerIdentityOutput where
  Account : Option String := none
  Arn : Option String := none
  UserId : Option String := none
  deriving DecidableEq, Repr

/-- `aws.ToString`: the string pointed to, and the empty string for `nil`. -/
def aws_ToString (p : Option String) : String :=
  match p with
  | some s => s
  | none => ""

/-- The record the query result is decoded into: `struct { Name string; Age int }`. -/
structure Record where
  Name : String := ""
  Age : Int := 0
  deriving DecidableEq, Repr

/-- `bson.D`: an ordered list of key/value pairs. -/
abbrev bson_D := List (String × String)

/-- `*mongo.SingleResult`: the error it carries (`Err()`, `none` for `nil`) and
what `Decode` gives for the record. -/
structure SingleResult where
  Err : Option GoErr
  Decode : Except GoErr Record

/-- Outcomes of everything the program asks of its surroundings. -/
structure World where
  /-- the environment variables -/
  env : Environ
  /-- the error returned by `config.LoadDefaultConfig` (`none` for `nil`) -/
  loadDefaultConfig : Option GoErr
  /-- outcome of `GetCallerIdentity` -/
  getCallerIdentity : Except GoErr GetCallerIdentityOutput
  /-- outcome of `os.ReadFile` on a path -/
  readFile : String → Except GoErr Bytes
  /-- the certificates `AppendCertsFromPEM` finds in PEM data -/
  pemCerts : Bytes → List Cert
  /-- the driver's parse of a connection string -/
  connString : String → ConnString
  /-- the error returned by `mongo.Connect` on given options (`none` for `nil`) -/
  connect : ClientOptions → Option GoErr
  /-- result of `FindOne` on a database, collection and filter -/
  findOne : String → String → bson_D → SingleResult

/-! ## Processes: traces and fatal termination -/

/-- What a run does that can be observed from outside, in order. -/
inductive Event where
  /-- `fmt.Println` with the given operands, already formatted -/
  | println (operands : List String)
  /-- call of `config.LoadDefaultConfig` -/
  | loadDefaultConfig
  /-- call of `GetCallerIdentity` on the identity service -/
  | getCallerIdentity
  /-- call of `os.ReadFile` -/
  | readFile (name : String)
  /-- call of `mongo.Connect` -/
  | connect (opts : ClientOptions)
  /-- call of `FindOne` -/
  | findOne (database collection : String) (filter : bson_D)
  /-- call of `Decode` on the query result -/
  | decode
  /-- `log.Fatal` with the given value (`none` for `nil`); the process exits with status 1 -/
  | fatal (v : Option GoErr)
  deriving DecidableEq, Repr

/-- A computation of the program: the events it produced and its value, `none`
when `log.Fatal` ended the process before it returned. -/
structure Proc (α : Type) where
  trace : List Event
  value : Option α

/-- Sequencing: the second computation runs only if the first returned. -/
def Proc.bind {α β : Type} (m : Proc α) (f : α → Proc β) : Proc β :=
  match m.value with
  | none => { trace := m.trace, value := none }
  | some a => { trace := m.trace ++ (f a).trace, value := (f a).value }

instance : Monad Proc where
  pure a := { trace := [], value := some a }
  bind := Proc.bind

/-- `log.Fatal(v)`: logs `v` and exits; nothing after it runs. -/
def log_Fatal {α : Type} (v : Option GoErr) : Proc α :=
  { trace := [Event.fatal v], value := none }

/-- `fmt.Println`: one line on standard output, the operands separated by spaces. -/
def fmt_Println (operands : List String) : Proc Unit :=
  { trace := [Event.println operands], value := some () }

/-- The default format of an `int`: decimal, with a minus sign when negative. -/
def fmtInt (k : Int) : String := toString k

/-- The default format of the record: its fields between braces, separated by a space. -/
def fmtRecord (r : Record) : String :=
  "\x7b" ++ r.Name ++ " " ++ fmtInt r.Age ++ "\x7d"

/-- `config.LoadDefaultConfig`. -/
def config_LoadDefaultConfig (w : World) : Proc (Option GoErr) :=
  { trace := [Event.loadDefaultConfig], value := some w.loadDefaultConfig }

/-- `stsService.GetCallerIdentity`. -/
def sts_GetCallerIdentity (w : World) : Proc (Except GoErr GetCallerIdentityOutput) :=
  { trace := [Event.getCallerIdentity], value := some w.getCallerIdentity }

/-- `os.ReadFile`. -/
def os_ReadFile (w : World) (name : String) : Proc (Except GoErr Bytes) :=
  { trace := [Event.readFile name], value := some (w.readFile name) }

/-- `mongo.Connect`; the value is the returned `err`. -/
def mongo_Connect (w : World) (opts : ClientOptions) : Proc (Option GoErr) :=
  { trace := [Event.connect opts], value := some (w.connect opts) }

/-- `client.Database(db).Collection(coll).FindOne(ctx, filter)`. -/
def mongo_FindOne (w : World) (db coll : String) (filter : bson_D) : Proc SingleResult :=
  { trace := [Event.findOne db coll filter], value := some (w.findOne db coll filter) }

/-- `result.Decode(&data)`: the record after the call and the returned error. -/
def SingleResult.DecodeInto (result : SingleResult) (data : Record) :
    Proc (Record × Option GoErr) :=
  { trace := [Event.decode]
    value := some (match result.Decode with
      | .ok r => (r, none)
      | .error e => (data, some e)) }

/-! ## The program -/

/-- `printAWSIdentity` (main.go, lines 42-56). -/
def printAWSIdentity (w : World) : Proc Unit := do
  let err ← config_LoadDefaultConfig w
  if err ≠ none then
    log_Fatal err
  match ← sts_GetCallerIdentity w with
  | .error err => log_Fatal (some err)
  | .ok identity =>
    fmt_Println ["== AWS caller identity"]
    fmt_Println ["ARN: ", aws_ToString identity.Arn]

/-- `makeTLSConfig` (main.go, lines 104-115). -/
def makeTLSConfig (w : World) : Proc TLSConfig := do
  match ← os_ReadFile w "global-bundle.pem" with
  | .error err => log_Fatal (some err)
  | .ok cas =>
    let pool := x509_NewCertPool
    let pool := (pool.AppendCertsFromPEM w.pemCerts cas).1
    pure { RootCAs := some pool }

/-- `connectWithAWSIdentity` (main.go, lines 58-87).  The `err` passed to
`log.Fatal` when `result.Err()` is not `nil` is the variable assigned by
`mongo.Connect`, as in the source. -/
def connectWithAWSIdentity (w : World) : Proc Unit := do
  fmt_Println ["== Connect", os_Getenv w.env "DOCDB_URL"]
  let options := options_Client
  let options := options.ApplyURI w.connString ("mongodb://" ++ os_Getenv w.env "DOCDB_URL")
  let options := options.SetDirect true
  let options := options.SetAuth (makeCred w.env)
  let options := options.SetTLSConfig (← makeTLSConfig w)
  fmt_Println ["Preparing..."]
  let err ← mongo_Connect w options
  if err ≠ none then
    log_Fatal err
  fmt_Println ["Connected."]
  let result ← mongo_FindOne w "test" "users" []
  if result.Err ≠ none then
    log_Fatal err
  let data : Record := {}
  let (data, err) ← result.DecodeInto data
  if err ≠ none then
    log_Fatal err
  fmt_Println ["Result: ", fmtRecord data]

/-- `main` (main.go, lines 35-40). -/
def main (w : World) : Proc Unit := do
  printAWSIdentity w
  connectWithAWSIdentity w

/-! ## Observations on a trace -/

/-- The lines written to standard output, in order. -/
def stdoutLines (trace : List Event) : List String :=
  trace.filterMap fun e =>
    match e with
    | .println operands => some (" ".intercalate operands)
    | _ => none

/-- An environment given by a finite list of bindings. -/
def envOf (bindings : List (String × String)) : Environ :=
  fun key => bindings.lookup key

/-- A world in which everything succeeds and the first user is `steve`, 555. -/
def sampleWorld : World where
  env := envOf [("AWS_ACCESS_KEY_ID", "AKIA"), ("AWS_SECRET_ACCESS_KEY", "s3cr3t"),
    ("AWS_DEFAULT_REGION", "us-west-2"), ("DOCDB_URL", "db.example.com:27017")]
  loadDefaultConfig := none
  getCallerIdentity := .ok { Arn := some "arn:aws:sts::1:assumed-role/r/s" }
  readFile := fun name =>
    if name = "global-bundle.pem" then .ok [45, 45] else .error "no such file"
  pemCerts := fun _ => ["rds-root-ca"]
  connString := fun _ => {}
  connect := fun _ => none
  findOne := fun _ _ _ => { Err := none, Decode := .ok { Name := "steve", Age := 555 } }

/-- The options the program is meant to hand to `mongo.Connect` when the bundle
file holds `b`: the URI built from `DOCDB_URL`, a direct connection, the
credential of `makeCred`, and a TLS configuration whose only set field is a
root pool filled from `b`. -/
def specOptions (w : World) (b : Bytes) : ClientOptions :=
  { uri := "mongodb://" ++ os_Getenv w.env "DOCDB_URL"
    Auth := some (makeCred w.env)
    Direct := some true
    TLSConfig := some { RootCAs := some (x509_NewCertPool.AppendCertsFromPEM w.pemCerts b).1 } }

/-- The stages of a run, each a request to something outside the program. -/
inductive Stage where
  | credentials
  | identity
  | bundle
  | connect
  | query
  | decode
  deriving DecidableEq, Repr

/-- The stages in the order the program goes through them. -/
def allStages : List Stage :=
  [Stage.credentials, Stage.identity, Stage.bundle, Stage.connect, Stage.query, Stage.decode]

/-- Position of a stage in `allStages`. -/
def Stage.position : Stage → Nat
  | .credentials => 0
  | .identity => 1
  | .bundle => 2
  | .connect => 3
  | .query => 4
  | .decode => 5

/-- The stage an event belongs to, for the events that are requests. -/
def Event.stage : Event → Option Stage
  | .loadDefaultConfig => some Stage.credentials
  | .getCallerIdentity => some Stage.identity
  | .readFile _ => some Stage.bundle
  | .connect _ => some Stage.connect
  | .findOne _ _ _ => some Stage.query
  | .decode => some Stage.decode
  | .println _ => none
  | .fatal _ => none

/-- The stages a trace went through, in order, with repetitions if any. -/
def stagesOf (trace : List Event) : List Stage :=
  trace.filterMap Event.stage

/-- Whether an event is a printed line whose first operand is `Result: `. -/
def Event.isResultLine : Event → Bool
  | .println operands => decide (operands.head? = some "Result: ")
  | _ => false

/-- Whether a trace prints a `Result: ` line. -/
def resultPrinted (trace : List Event) : Bool :=
  trace.any Event.isResultLine

/-- Whether an event goes over the network. -/
def Event.isNetwork : Event → Bool
  | .getCallerIdentity => true
  | .connect _ => true
  | .findOne _ _ _ => true
  | _ => false

/-- The network requests of a trace, in order. -/
def networkCalls (trace : List Event) : List Event :=
  trace.filter Event.isNetwork

/-- Whether an event is a call of `mongo.Connect`. -/
def Event.isConnect : Event → Bool
  | .connect _ => true
  | _ => false

/-- Whether an event is a database query. -/
def Event.isQuery : Event → Bool
  | .findOne _ _ _ => true
  | _ => false

/-- The calls of `mongo.Connect` of a trace, in order. -/
def connectsOf (trace : List Event) : List Event :=
  trace.filter Event.isConnect

/-- The queries of a trace, in order. -/
def queriesOf (trace : List Event) : List Event :=
  trace.filter Event.isQuery

/-- The first stage whose request fails in a world, going through the stages in
order; `none` when every one succeeds. -/
def firstFailure (w : World) : Option Stage :=
  match w.loadDefaultConfig with
  | some _ => some Stage.credentials
  | none =>
    match w.getCallerIdentity with
    | .error _ => some Stage.identity
    | .ok _ =>
      match w.readFile "global-bundle.pem" with
      | .error _ => some Stage.bundle
      | .ok b =>
        match w.connect (specOptions w b) with
        | some _ => some Stage.connect
        | none =>
          match (w.findOne "test" "users" []).Err with
          | some _ => some Stage.query
          | none =>
            match (w.findOne "test" "users" []).Decode with
            | .error _ => some Stage.decode
            | .ok _ => none

/-- The sample world without the bundle file. -/
def noBundleWorld : World :=
  { sampleWorld with
    readFile := fun _ => .error "open global-bundle.pem: no such file or directory" }

/-- The sample world with `DOCDB_URL` not set, so that the URI names no host and
`mongo.Connect` returns an error. -/
def noHostWorld : World :=
  { sampleWorld with
    env := envOf [("AWS_ACCESS_KEY_ID", "AKIA"), ("AWS_SECRET_ACCESS_KEY", "s3cr3t")]
    connect := fun _ => some "error parsing uri: must have at least 1 host" }

/-- The sample world with an empty `users` collection: `FindOne` gives a result
that carries `mongo.ErrNoDocuments`. -/
def emptyCollectionWorld : World :=
  { sampleWorld with
    findOne := fun _ _ _ =>
      { Err := some "mongo: no documents in result"
        Decode := .error "mongo: no documents in result" } }

/-- The sample world with an empty bundle file, in which no certificate is found. -/
def emptyBundleWorld : World :=
  { sampleWorld with
    readFile := fun name => if name = "global-bundle.pem" then .ok [] else .error "no such file"
    pemCerts := fun _ => [] }

/-! ## Helper lemmas: the run in closed form, by outcome -/

/-- The body of `main`: `printAWSIdentity`, then `connectWithAWSIdentity` if it returned. -/
theorem main_eq (w : World) :
    main w = (printAWSIdentity w).bind (fun _ => connectWithAWSIdentity w) := rfl

/-- Run of `printAWSIdentity` when `LoadDefaultConfig` returns an error. -/
theorem printAWSIdentity_config_error (w : World) (e : GoErr)
    (h1 : w.loadDefaultConfig = some e) :
    printAWSIdentity w =
      { trace := [Event.loadDefaultConfig, Event.fatal (some e)], value := none } := by
  simp [printAWSIdentity, bind, Proc.bind, config_LoadDefaultConfig, log_Fatal, h1]

/-- Run of `printAWSIdentity` when `GetCallerIdentity` returns an error. -/
theorem printAWSIdentity_identity_error (w : World) (e : GoErr)
    (h1 : w.loadDefaultConfig = none) (h2 : w.getCallerIdentity = .error e) :
    printAWSIdentity w =
      { trace := [Event.loadDefaultConfig, Event.getCallerIdentity, Event.fatal (some e)]
        value := none } := by
  simp [printAWSIdentity, bind, Proc.bind, config_LoadDefaultConfig, log_Fatal,
    sts_GetCallerIdentity, pure, h1, h2]

/-- Run of `printAWSIdentity` when both requests succeed. -/
theorem printAWSIdentity_ok (w : World) (identity : GetCallerIdentityOutput)
    (h1 : w.loadDefaultConfig = none) (h2 : w.getCallerIdentity = .ok identity) :
    printAWSIdentity w =
      { trace := [Event.loadDefaultConfig, Event.getCallerIdentity,
          Event.println ["== AWS caller identity"],
          Event.println ["ARN: ", aws_ToString identity.Arn]]
        value := some () } := by
  simp [printAWSIdentity, bind, Proc.bind, config_LoadDefaultConfig, log_Fatal,
    sts_GetCallerIdentity, fmt_Println, pure, h1, h2]

/-- Run of `makeTLSConfig` when the bundle cannot be read. -/
theorem makeTLSConfig_read_error (w : World) (e : GoErr)
    (h : w.readFile "global-bundle.pem" = .error e) :
    makeTLSConfig w =
      { trace := [Event.readFile "global-bundle.pem", Event.fatal (some e)], value := none } := by
  simp [makeTLSConfig, bind, Proc.bind, os_ReadFile, log_Fatal, h]

/-- Run of `makeTLSConfig` when the bundle is read. -/
theorem makeTLSConfig_ok (w : World) (b : Bytes)
    (h : w.readFile "global-bundle.pem" = .ok b) :
    makeTLSConfig w =
      { trace := [Event.readFile "global-bundle.pem"]
        value := some { RootCAs := some (x509_NewCertPool.AppendCertsFromPEM w.pemCerts b).1 } } := by
  simp [makeTLSConfig, bind, Proc.bind, os_ReadFile, pure, h]

/-- Run of `connectWithAWSIdentity` when the bundle cannot be read. -/
theorem connect_read_error (w : World) (e : GoErr)
    (h : w.readFile "global-bundle.pem" = .error e) :
    connectWithAWSIdentity w =
      { trace := [Event.println ["== Connect", os_Getenv w.env "DOCDB_URL"],
          Event.readFile "global-bundle.pem", Event.fatal (some e)]
        value := none } := by
  simp [connectWithAWSIdentity, bind, Proc.bind, fmt_Println, makeTLSConfig_read_error w e h]

/-- Run of `connectWithAWSIdentity` when `mongo.Connect` returns an error. -/
theorem connect_connect_error (w : World) (b : Bytes) (e : GoErr)
    (h : w.readFile "global-bundle.pem" = .ok b)
    (hc : w.connect (specOptions w b) = some e) :
    connectWithAWSIdentity w =
      { trace := [Event.println ["== Connect", os_Getenv w.env "DOCDB_URL"],
          Event.readFile "global-bundle.pem", Event.println ["Preparing..."],
          Event.connect (specOptions w b), Event.fatal (some e)]
        value := none } := by
  have hc2 := hc
  simp only [specOptions] at hc2
  simp [connectWithAWSIdentity, bind, Proc.bind, fmt_Println, makeTLSConfig_ok w b h,
    mongo_Connect, log_Fatal, options_Client, ClientOptions.ApplyURI, ClientOptions.SetDirect,
    ClientOptions.SetAuth, ClientOptions.SetTLSConfig, specOptions, hc2]

/-- Run of `connectWithAWSIdentity` when the result of `FindOne` carries an error. -/
theorem connect_query_error (w : World) (b : Bytes) (e : GoErr)
    (h : w.readFile "global-bundle.pem" = .ok b)
    (hc : w.connect (specOptions w b) = none)
    (hq : (w.findOne "test" "users" []).Err = some e) :
    connectWithAWSIdentity w =
      { trace := [Event.println ["== Connect", os_Getenv w.env "DOCDB_URL"],
          Event.readFile "global-bundle.pem", Event.println ["Preparing..."],
          Event.connect (specOptions w b), Event.println ["Connected."],
          Event.findOne "test" "users" [], Event.fatal none]
        value := none } := by
  have hc2 := hc
  simp only [specOptions] at hc2
  simp [connectWithAWSIdentity, bind, Proc.bind, fmt_Println, makeTLSConfig_ok w b h,
    mongo_Connect, mongo_FindOne, log_Fatal, options_Client, ClientOptions.ApplyURI,
    ClientOptions.SetDirect, ClientOptions.SetAuth, ClientOptions.SetTLSConfig, specOptions,
    pure, hc2, hq]

/-- Run of `connectWithAWSIdentity` when `Decode` returns an error. -/
theorem connect_decode_error (w : World) (b : Bytes) (e : GoErr)
    (h : w.readFile "global-bundle.pem" = .ok b)
    (hc : w.connect (specOptions w b) = none)
    (hq : (w.findOne "test" "users" []).Err = none)
    (hd : (w.findOne "test" "users" []).Decode = .error e) :
    connectWithAWSIdentity w =
      { trace := [Event.println ["== Connect", os_Getenv w.env "DOCDB_URL"],
          Event.readFile "global-bundle.pem", Event.println ["Preparing..."],
          Event.connect (specOptions w b), Event.println ["Connected."],
          Event.findOne "test" "users" [], Event.decode, Event.fatal (some e)]
        value := none } := by
  have hc2 := hc
  simp only [specOptions] at hc2
  simp [connectWithAWSIdentity, bind, Proc.bind, fmt_Println, makeTLSConfig_ok w b h,
    mongo_Connect, mongo_FindOne, SingleResult.DecodeInto, log_Fatal, options_Client,
    ClientOptions.ApplyURI, ClientOptions.SetDirect, ClientOptions.SetAuth,
    ClientOptions.SetTLSConfig, specOptions, pure, hc2, hq, hd]

/-- Run of `connectWithAWSIdentity` when every request succeeds. -/
theorem connect_ok (w : World) (b : Bytes) (r : Record)
    (h : w.readFile "global-bundle.pem" = .ok b)
    (hc : w.connect (specOptions w b) = none)
    (hq : (w.findOne "test" "users" []).Err = none)
    (hd : (w.findOne "test" "users" []).Decode = .ok r) :
    connectWithAWSIdentity w =
      { trace := [Event.println ["== Connect", os_Getenv w.env "DOCDB_URL"],
          Event.readFile "global-bundle.pem", Event.println ["Preparing..."],
          Event.connect (specOptions w b), Event.println ["Connected."],
          Event.findOne "test" "users" [], Event.decode,
          Event.println ["Result: ", fmtRecord r]]
        value := some () } := by
  have hc2 := hc
  simp only [specOptions] at hc2
  simp [connectWithAWSIdentity, bind, Proc.bind, fmt_Println, makeTLSConfig_ok w b h,
    mongo_Connect, mongo_FindOne, SingleResult.DecodeInto, log_Fatal, options_Client,
    ClientOptions.ApplyURI, ClientOptions.SetDirect, ClientOptions.SetAuth,
    ClientOptions.SetTLSConfig, specOptions, pure, hc2, hq, hd]

/-- With a readable bundle, `connectWithAWSIdentity` calls `mongo.Connect` once, on
`specOptions`, and queries once or not at all according to the outcome of that call. -/
theorem connect_trace_filters (w : World) (b : Bytes)
    (h : w.readFile "global-bundle.pem" = .ok b) :
    connectsOf (connectWithAWSIdentity w).trace = [Event.connect (specOptions w b)] ∧
    Event.connect (specOptions w b) ∈ (connectWithAWSIdentity w).trace ∧
    (w.connect (specOptions w b) = none →
      queriesOf (connectWithAWSIdentity w).trace = [Event.findOne "test" "users" []]) ∧
    (w.connect (specOptions w b) ≠ none → queriesOf (connectWithAWSIdentity w).trace = []) := by
  rcases h4 : w.connect (specOptions w b) with _ | e
  · rcases h5 : (w.findOne "test" "users" []).Err with _ | e
    · rcases h6 : (w.findOne "test" "users" []).Decode with e | r
      · simp [connect_decode_error w b e h h4 h5 h6, connectsOf, queriesOf, Event.isConnect,
          Event.isQuery]
      · simp [connect_ok w b r h h4 h5 h6, connectsOf, queriesOf, Event.isConnect,
          Event.isQuery]
    · simp [connect_query_error w b e h h4 h5, connectsOf, queriesOf, Event.isConnect,
        Event.isQuery]
  · simp [connect_connect_error w b e h h4, connectsOf, queriesOf, Event.isConnect,
      Event.isQuery]

/-- Members of a pool after adding a list of certificates. -/
theorem mem_foldl_AddCert (cs : List Cert) (s : CertPool) (c : Cert) :
    c ∈ (cs.foldl CertPool.AddCert s).certs ↔ c ∈ s.certs ∨ c ∈ cs := by
  induction cs generalizing s with
  | nil => simp
  | cons d ds ih =>
    rw [List.foldl_cons, ih]
    by_cases hd : d ∈ s.certs
    · simp only [CertPool.AddCert, hd, if_true, List.mem_cons]
      constructor
      · rintro (h | h)
        · exact Or.inl h
        · exact Or.inr (Or.inr h)
      · rintro (h | h | h)
        · exact Or.inl h
        · exact Or.inl (h ▸ hd)
        · exact Or.inr h
    · simp only [CertPool.AddCert, hd, if_false, List.mem_append, List.mem_singleton,
        List.mem_cons]
      tauto

/-- Members of a new pool filled from PEM data. -/
theorem mem_AppendCertsFromPEM (pemCerts : Bytes → List Cert) (b : Bytes) (c : Cert) :
    c ∈ (x509_NewCertPool.AppendCertsFromPEM pemCerts b).1.certs ↔ c ∈ pemCerts b := by
  simp [CertPool.AppendCertsFromPEM, mem_foldl_AddCert, x509_NewCertPool]

/-! ## Theorems about `makeCred` -/


/-- C1: when `AWS_SESSION_TOKEN` is not set, the credential built by `makeCred`
has no `AuthMechanismProperties` map at all (so in particular no
`AWS_SESSION_TOKEN` entry bound to the empty string), whatever the other
variables hold. -/
theorem makeCred_no_token (env : Environ) (h : env "AWS_SESSION_TOKEN" = none) :
    (makeCred env).AuthMechanismProperties = none := by
  simp [makeCred, os_Getenv, h]

/-- Witness for C1: an environment with the two key variables and no token. -/
theorem makeCred_no_token_witness :
    envOf [("AWS_ACCESS_KEY_ID", "AKIA"), ("AWS_SECRET_ACCESS_KEY", "s3cr3t")]
        "AWS_SESSION_TOKEN" = none ∧
      (makeCred (envOf [("AWS_ACCESS_KEY_ID", "AKIA"),
        ("AWS_SECRET_ACCESS_KEY", "s3cr3t")])).AuthMechanismProperties = none :=
  ⟨by decide, makeCred_no_token _ (by decide)⟩

/-- C2: when `AWS_SESSION_TOKEN` is set to a non-empty string `t`, the
credential built by `makeCred` has as `AuthMechanismProperties` exactly the
one-entry map binding `AWS_SESSION_TOKEN` to `t`. -/
theorem makeCred_token (env : Environ) (t : String) (ht : t ≠ "")
    (h : env "AWS_SESSION_TOKEN" = some t) :
    (makeCred env).AuthMechanismProperties = some [("AWS_SESSION_TOKEN", t)] := by
  simp [makeCred, os_Getenv, h, ht]

/-- Witness for C2: the token `tok123`. -/
theorem makeCred_token_witness :
    (makeCred (envOf [("AWS_SESSION_TOKEN", "tok123")])).AuthMechanismProperties =
      some [("AWS_SESSION_TOKEN", "tok123")] :=
  makeCred_token (envOf [("AWS_SESSION_TOKEN", "tok123")]) "tok123" (by decide) (by decide)

/-- C3: for every environment the credential has `Username` and `Password`
equal to the values of `AWS_ACCESS_KEY_ID` and `AWS_SECRET_ACCESS_KEY` as
`os.Getenv` returns them, mechanism `auth.MongoDBAWS` and source `$external`;
and two environments that agree on those two variables give the same four
fields, whatever they hold for every other variable. -/
theorem makeCred_fields (env : Environ) :
    ((makeCred env).Username = os_Getenv env "AWS_ACCESS_KEY_ID" ∧
      (makeCred env).Password = os_Getenv env "AWS_SECRET_ACCESS_KEY" ∧
      (makeCred env).AuthMechanism = auth_MongoDBAWS ∧
      (makeCred env).AuthSource = "$external") ∧
    ∀ env2 : Environ,
      env2 "AWS_ACCESS_KEY_ID" = env "AWS_ACCESS_KEY_ID" →
      env2 "AWS_SECRET_ACCESS_KEY" = env "AWS_SECRET_ACCESS_KEY" →
      (makeCred env2).Username = (makeCred env).Username ∧
      (makeCred env2).Password = (makeCred env).Password ∧
      (makeCred env2).AuthMechanism = (makeCred env).AuthMechanism ∧
      (makeCred env2).AuthSource = (makeCred env).AuthSource := by
  have key : ∀ e : Environ,
      (makeCred e).Username = os_Getenv e "AWS_ACCESS_KEY_ID" ∧
      (makeCred e).Password = os_Getenv e "AWS_SECRET_ACCESS_KEY" ∧
      (makeCred e).AuthMechanism = auth_MongoDBAWS ∧
      (makeCred e).AuthSource = "$external" := by
    intro e
    by_cases ht : os_Getenv e "AWS_SESSION_TOKEN" = "" <;> simp [makeCred, ht]
  refine ⟨key env, ?_⟩
  intro env2 h1 h2
  obtain ⟨a1, a2, a3, a4⟩ := key env
  obtain ⟨b1, b2, b3, b4⟩ := key env2
  rw [a1, a2, a3, a4, b1, b2, b3, b4]
  simp [os_Getenv, h1, h2]


/-- Witness for C3: two environments that agree on the two key variables and
differ in the token, the region and the URL. -/
theorem makeCred_fields_witness :
    (makeCred (envOf [("AWS_ACCESS_KEY_ID", "AKIA"), ("AWS_SECRET_ACCESS_KEY", "s3cr3t"),
      ("AWS_SESSION_TOKEN", "tok123"), ("DOCDB_URL", "h:1")])).Username = "AKIA" ∧
    (makeCred (envOf [("AWS_ACCESS_KEY_ID", "AKIA"), ("AWS_SECRET_ACCESS_KEY", "s3cr3t"),
      ("AWS_SESSION_TOKEN", "tok123"), ("DOCDB_URL", "h:1")])).Password =
      (makeCred (envOf [("AWS_ACCESS_KEY_ID", "AKIA"),
        ("AWS_SECRET_ACCESS_KEY", "s3cr3t")])).Password :=
  ⟨by decide,
    ((makeCred_fields (envOf [("AWS_ACCESS_KEY_ID", "AKIA"),
      ("AWS_SECRET_ACCESS_KEY", "s3cr3t")])).2
      (envOf [("AWS_ACCESS_KEY_ID", "AKIA"), ("AWS_SECRET_ACCESS_KEY", "s3cr3t"),
        ("AWS_SESSION_TOKEN", "tok123"), ("DOCDB_URL", "h:1")])
      (by decide) (by decide)).2.1⟩

/-! ## Theorems about a run of `main` -/

/-- C6: a `Result: ` line is printed exactly when no stage fails.  When none
fails the run returns normally, has gone through the six stages once each in
order, and ends by printing the decoded record.  When stage `s` is the first to
fail the run is ended by `log.Fatal`, has gone through the stages up to `s`
once each and through none after it, and prints no `Result: ` line; when `s`
is one of the two stages of `printAWSIdentity` nothing at all is printed, so
`connectWithAWSIdentity`, which starts by printing, is not entered. -/
theorem main_result_iff_no_failure (w : World) :
    (resultPrinted (main w).trace = true ↔ firstFailure w = none) ∧
    (firstFailure w = none →
      (main w).value = some () ∧ stagesOf (main w).trace = allStages ∧
      ∃ r, (w.findOne "test" "users" []).Decode = .ok r ∧
        (main w).trace.getLast? = some (Event.println ["Result: ", fmtRecord r])) ∧
    (∀ s, firstFailure w = some s →
      (main w).value = none ∧ stagesOf (main w).trace = allStages.take (s.position + 1) ∧
      resultPrinted (main w).trace = false ∧
      (s.position < 2 → stdoutLines (main w).trace = []) ∧
      ∃ v, (main w).trace.getLast? = some (Event.fatal v)) := by
  rcases h1 : w.loadDefaultConfig with _ | e
  · rcases h2 : w.getCallerIdentity with e | identity
    · simp [main_eq, printAWSIdentity_identity_error w e h1 h2, Proc.bind, firstFailure, h1, h2,
        resultPrinted, Event.isResultLine, stagesOf, Event.stage, allStages, Stage.position, stdoutLines]
    · rcases h3 : w.readFile "global-bundle.pem" with e | b
      · simp [main_eq, printAWSIdentity_ok w identity h1 h2, connect_read_error w e h3,
          Proc.bind, firstFailure, h1, h2, h3, resultPrinted, Event.isResultLine, stagesOf,
          Event.stage, allStages, Stage.position, stdoutLines]
      · rcases h4 : w.connect (specOptions w b) with _ | e
        · rcases h5 : (w.findOne "test" "users" []).Err with _ | e
          · rcases h6 : (w.findOne "test" "users" []).Decode with e | r
            · simp [main_eq, printAWSIdentity_ok w identity h1 h2,
                connect_decode_error w b e h3 h4 h5 h6, Proc.bind, firstFailure, h1, h2, h3,
                h4, h5, h6, resultPrinted, Event.isResultLine, stagesOf, Event.stage,
                allStages, Stage.position, stdoutLines]
            · simp [main_eq, printAWSIdentity_ok w identity h1 h2,
                connect_ok w b r h3 h4 h5 h6, Proc.bind, firstFailure, h1, h2, h3,
                h4, h5, h6, resultPrinted, Event.isResultLine, stagesOf, Event.stage,
                allStages, Stage.position, stdoutLines]
          · simp [main_eq, printAWSIdentity_ok w identity h1 h2,
              connect_query_error w b e h3 h4 h5, Proc.bind, firstFailure, h1, h2, h3,
              h4, h5, resultPrinted, Event.isResultLine, stagesOf, Event.stage,
              allStages, Stage.position, stdoutLines]
        · simp [main_eq, printAWSIdentity_ok w identity h1 h2,
            connect_connect_error w b e h3 h4, Proc.bind, firstFailure, h1, h2, h3,
            h4, resultPrinted, Event.isResultLine, stagesOf, Event.stage,
            allStages, Stage.position, stdoutLines]
  · simp [main_eq, printAWSIdentity_config_error w e h1, Proc.bind, firstFailure, h1,
      resultPrinted, Event.isResultLine, stagesOf, Event.stage, allStages, Stage.position, stdoutLines]

/-- Witness for C6: in the sample world no stage fails, so the run returns, goes
through all six stages and ends with the `Result: ` line; with an empty
collection the query stage fails, so the run is ended by `log.Fatal` after the
first five stages and prints no `Result: ` line. -/
theorem main_result_iff_no_failure_witness :
    (firstFailure sampleWorld = none ∧
      ((main sampleWorld).value = some () ∧ stagesOf (main sampleWorld).trace = allStages ∧
        ∃ r, (sampleWorld.findOne "test" "users" []).Decode = .ok r ∧
          (main sampleWorld).trace.getLast? =
            some (Event.println ["Result: ", fmtRecord r]))) ∧
    (firstFailure emptyCollectionWorld = some Stage.query ∧
      ((main emptyCollectionWorld).value = none ∧
        stagesOf (main emptyCollectionWorld).trace =
          allStages.take (Stage.query.position + 1) ∧
        resultPrinted (main emptyCollectionWorld).trace = false ∧
        (Stage.query.position < 2 → stdoutLines (main emptyCollectionWorld).trace = []) ∧
        ∃ v, (main emptyCollectionWorld).trace.getLast? = some (Event.fatal v))) :=
  ⟨⟨by decide, (main_result_iff_no_failure sampleWorld).2.1 (by decide)⟩,
    ⟨by decide, (main_result_iff_no_failure emptyCollectionWorld).2.2 Stage.query (by decide)⟩⟩

/-- C7: in a run in which every stage succeeds, with identity ARN `a`,
`DOCDB_URL` value `u` and decoded record of name `n` and age `k`, the run
returns and standard output is exactly the six lines of the sample run, in
that order. -/
theorem successful_run_stdout (w : World) (identity : GetCallerIdentityOutput) (b : Bytes)
    (a u n : String) (k : Int)
    (h1 : w.loadDefaultConfig = none) (h2 : w.getCallerIdentity = .ok identity)
    (ha : aws_ToString identity.Arn = a) (hu : os_Getenv w.env "DOCDB_URL" = u)
    (h3 : w.readFile "global-bundle.pem" = .ok b)
    (h4 : w.connect (specOptions w b) = none)
    (h5 : (w.findOne "test" "users" []).Err = none)
    (h6 : (w.findOne "test" "users" []).Decode = .ok { Name := n, Age := k }) :
    (main w).value = some () ∧
    stdoutLines (main w).trace =
      ["== AWS caller identity", "ARN:  " ++ a, "== Connect " ++ u, "Preparing...",
        "Connected.", "Result:  \x7b" ++ n ++ " " ++ fmtInt k ++ "\x7d"] := by
  subst ha hu
  simp [main_eq, printAWSIdentity_ok w identity h1 h2, connect_ok w b _ h3 h4 h5 h6,
    Proc.bind, stdoutLines, String.intercalate, String.intercalate.go, fmtRecord,
    String.append_assoc]
  rw [← String.append_assoc]
  rfl

/-- Witness for C7: the sample world, whose first user decodes to `steve`, 555;
the last line is `Result:  {steve 555}`. -/
theorem successful_run_stdout_witness :
    (main sampleWorld).value = some () ∧
    stdoutLines (main sampleWorld).trace =
      ["== AWS caller identity", "ARN:  arn:aws:sts::1:assumed-role/r/s",
        "== Connect db.example.com:27017", "Preparing...", "Connected.",
        "Result:  \x7bsteve 555\x7d"] :=
  successful_run_stdout sampleWorld { Arn := some "arn:aws:sts::1:assumed-role/r/s" } [45, 45]
    "arn:aws:sts::1:assumed-role/r/s" "db.example.com:27017" "steve" 555
    rfl rfl rfl (by decide) rfl rfl rfl rfl

/-- C4, as stated, fails: without the bundle file the run is ended by
`log.Fatal` at the read, and the identity-service call has been made before it. -/
theorem bundle_failure_after_identity_call :
    noBundleWorld.readFile "global-bundle.pem" =
      .error "open global-bundle.pem: no such file or directory" ∧
    (main noBundleWorld).value = none ∧
    (main noBundleWorld).trace =
      [Event.loadDefaultConfig, Event.getCallerIdentity,
        Event.println ["== AWS caller identity"],
        Event.println ["ARN: ", "arn:aws:sts::1:assumed-role/r/s"],
        Event.println ["== Connect", "db.example.com:27017"],
        Event.readFile "global-bundle.pem",
        Event.fatal (some "open global-bundle.pem: no such file or directory")] ∧
    networkCalls (main noBundleWorld).trace ≠ [] :=
  ⟨rfl, rfl, rfl, by decide⟩

/-- C4, amended: in every run of `main` in which the read of `global-bundle.pem`
is made and fails with `e`, the run is ended by `log.Fatal(e)`, `mongo.Connect`
is never called and no query is issued; the only network request of the run is
the identity-service call of `printAWSIdentity`, which was made before the read
and succeeded, as did the credential resolution before it: the run is exactly
the two requests of `printAWSIdentity`, its two printed lines, the `== Connect`
line, the read and the fatal log. -/
theorem bundle_failure_before_database (w : World) (e : GoErr)
    (hrun : Event.readFile "global-bundle.pem" ∈ (main w).trace)
    (hfail : w.readFile "global-bundle.pem" = .error e) :
    (main w).value = none ∧
    (main w).trace.getLast? = some (Event.fatal (some e)) ∧
    connectsOf (main w).trace = [] ∧
    queriesOf (main w).trace = [] ∧
    networkCalls (main w).trace = [Event.getCallerIdentity] ∧
    w.loadDefaultConfig = none ∧
    ∃ identity, w.getCallerIdentity = .ok identity ∧
      (main w).trace =
        [Event.loadDefaultConfig, Event.getCallerIdentity,
          Event.println ["== AWS caller identity"],
          Event.println ["ARN: ", aws_ToString identity.Arn],
          Event.println ["== Connect", os_Getenv w.env "DOCDB_URL"],
          Event.readFile "global-bundle.pem", Event.fatal (some e)] := by
  rcases h1 : w.loadDefaultConfig with _ | e1
  · rcases h2 : w.getCallerIdentity with e2 | identity
    · simp [main_eq, printAWSIdentity_identity_error w e2 h1 h2, Proc.bind] at hrun
    · simp [main_eq, printAWSIdentity_ok w identity h1 h2, connect_read_error w e hfail,
        Proc.bind, connectsOf, queriesOf, networkCalls, Event.isConnect, Event.isQuery,
        Event.isNetwork]
  · simp [main_eq, printAWSIdentity_config_error w e1 h1, Proc.bind] at hrun

/-- Witness for C4, amended: the sample world without the bundle file. -/
theorem bundle_failure_before_database_witness :
    (main noBundleWorld).value = none ∧
    (main noBundleWorld).trace.getLast? =
      some (Event.fatal (some "open global-bundle.pem: no such file or directory")) ∧
    connectsOf (main noBundleWorld).trace = [] ∧
    queriesOf (main noBundleWorld).trace = [] ∧
    networkCalls (main noBundleWorld).trace = [Event.getCallerIdentity] ∧
    noBundleWorld.loadDefaultConfig = none ∧
    ∃ identity, noBundleWorld.getCallerIdentity = .ok identity ∧
      (main noBundleWorld).trace =
        [Event.loadDefaultConfig, Event.getCallerIdentity,
          Event.println ["== AWS caller identity"],
          Event.println ["ARN: ", aws_ToString identity.Arn],
          Event.println ["== Connect", os_Getenv noBundleWorld.env "DOCDB_URL"],
          Event.readFile "global-bundle.pem",
          Event.fatal (some "open global-bundle.pem: no such file or directory")] :=
  bundle_failure_before_database noBundleWorld
    "open global-bundle.pem: no such file or directory" (by decide) rfl

/-- C5, the query stage: with an empty collection the result of `FindOne`
carries the error `mongo: no documents in result`, and the value handed to
`log.Fatal` is `nil`, the `err` left by `mongo.Connect`, not that error. -/
theorem query_error_logs_nil :
    (emptyCollectionWorld.findOne "test" "users" []).Err =
      some "mongo: no documents in result" ∧
    (main emptyCollectionWorld).value = none ∧
    (main emptyCollectionWorld).trace.getLast? = some (Event.fatal none) :=
  ⟨rfl, rfl, by decide⟩

/-! ## Theorems about `connectWithAWSIdentity` and `makeTLSConfig` -/

/-- C8, as stated, fails: with a readable bundle and `DOCDB_URL` not set,
`mongo.Connect` returns an error and no query at all is issued. -/
theorem no_query_when_connect_fails :
    noHostWorld.readFile "global-bundle.pem" = .ok [45, 45] ∧
    (connectWithAWSIdentity noHostWorld).value = none ∧
    queriesOf (connectWithAWSIdentity noHostWorld).trace = [] ∧
    queriesOf (connectWithAWSIdentity noHostWorld).trace ≠ [Event.findOne "test" "users" []] :=
  ⟨rfl, rfl, by decide, by decide⟩

/-- C8, amended: when the bundle file is readable, `connectWithAWSIdentity`
calls `mongo.Connect` once, with options whose URI is `mongodb://` followed by
the value of `DOCDB_URL`, with `Direct` true, `Auth` the result of `makeCred`
and TLS configuration the result of `makeTLSConfig`.  If that call succeeds
exactly one query is issued, `FindOne` with the empty filter on database `test`,
collection `users`, the same for every environment.  If it fails with `e` no
query is issued and the process is ended by `log.Fatal(e)` right after the
call: nothing is returned and the fatal log is the last event. -/
theorem connect_options_and_query (w : World) (b : Bytes)
    (h : w.readFile "global-bundle.pem" = .ok b) :
    ∃ opts cfg,
      connectsOf (connectWithAWSIdentity w).trace = [Event.connect opts] ∧
      (makeTLSConfig w).value = some cfg ∧
      opts.uri = "mongodb://" ++ os_Getenv w.env "DOCDB_URL" ∧
      opts.Direct = some true ∧
      opts.Auth = some (makeCred w.env) ∧
      opts.TLSConfig = some cfg ∧
      (w.connect opts = none →
        queriesOf (connectWithAWSIdentity w).trace = [Event.findOne "test" "users" []]) ∧
      (w.connect opts ≠ none → queriesOf (connectWithAWSIdentity w).trace = []) ∧
      (∀ e, w.connect opts = some e →
        (connectWithAWSIdentity w).value = none ∧
        (connectWithAWSIdentity w).trace.getLast? = some (Event.fatal (some e)) ∧
        (connectWithAWSIdentity w).trace =
          [Event.println ["== Connect", os_Getenv w.env "DOCDB_URL"],
            Event.readFile "global-bundle.pem", Event.println ["Preparing..."],
            Event.connect opts, Event.fatal (some e)]) := by
  obtain ⟨hc, -, hq1, hq2⟩ := connect_trace_filters w b h
  refine ⟨specOptions w b, _, hc, ?_, rfl, rfl, rfl, rfl, hq1, hq2, ?_⟩
  · rw [makeTLSConfig_ok w b h]
  · intro e he
    rw [connect_connect_error w b e h he]
    simp

/-- Witness for C8, amended: the sample world with `DOCDB_URL` not set, in which
the bundle is readable and `mongo.Connect` returns an error. -/
theorem connect_options_and_query_witness :
    ∃ opts cfg,
      connectsOf (connectWithAWSIdentity noHostWorld).trace = [Event.connect opts] ∧
      (makeTLSConfig noHostWorld).value = some cfg ∧
      opts.uri = "mongodb://" ++ os_Getenv noHostWorld.env "DOCDB_URL" ∧
      opts.Direct = some true ∧
      opts.Auth = some (makeCred noHostWorld.env) ∧
      opts.TLSConfig = some cfg ∧
      (noHostWorld.connect opts = none →
        queriesOf (connectWithAWSIdentity noHostWorld).trace =
          [Event.findOne "test" "users" []]) ∧
      (noHostWorld.connect opts ≠ none →
        queriesOf (connectWithAWSIdentity noHostWorld).trace = []) ∧
      (∀ e, noHostWorld.connect opts = some e →
        (connectWithAWSIdentity noHostWorld).value = none ∧
        (connectWithAWSIdentity noHostWorld).trace.getLast? = some (Event.fatal (some e)) ∧
        (connectWithAWSIdentity noHostWorld).trace =
          [Event.println ["== Connect", os_Getenv noHostWorld.env "DOCDB_URL"],
            Event.readFile "global-bundle.pem", Event.println ["Preparing..."],
            Event.connect opts, Event.fatal (some e)]) :=
  connect_options_and_query noHostWorld [45, 45] rfl

/-- C9: when `global-bundle.pem` is readable with contents `b`, `makeTLSConfig`
returns a configuration in which only `RootCAs` is set, to a pool that was
created empty and holds exactly the certificates found in `b`; so a server
certificate that chains to none of them is not trusted, whatever the host's
own root set holds. -/
theorem makeTLSConfig_roots (w : World) (b : Bytes)
    (h : w.readFile "global-bundle.pem" = .ok b) :
    x509_NewCertPool.certs = [] ∧
    ∃ pool,
      (makeTLSConfig w).value = some { RootCAs := some pool } ∧
      (∀ c, c ∈ pool.certs ↔ c ∈ w.pemCerts b) ∧
      ∀ (chainsTo : Cert → Cert → Bool) (hostRoots : List Cert) (leaf : Cert),
        (∀ c ∈ w.pemCerts b, chainsTo leaf c = false) →
        serverTrusted chainsTo hostRoots { RootCAs := some pool } leaf = false := by
  refine ⟨rfl, (x509_NewCertPool.AppendCertsFromPEM w.pemCerts b).1, ?_, ?_, ?_⟩
  · rw [makeTLSConfig_ok w b h]
  · exact mem_AppendCertsFromPEM w.pemCerts b
  · intro chainsTo hostRoots leaf hno
    simp only [serverTrusted, Bool.false_eq_true, if_false, List.any_eq_false]
    intro c hc
    rw [hno c ((mem_AppendCertsFromPEM w.pemCerts b c).1 hc)]
    simp

/-- Witness for C9: the sample world, whose bundle holds the one root
`rds-root-ca`; a certificate that chains only to a root of the host is refused. -/
theorem makeTLSConfig_roots_witness :
    (makeTLSConfig sampleWorld).value = some { RootCAs := some { certs := ["rds-root-ca"] } } ∧
    serverTrusted (fun _ root => root == "host-root") ["host-root"]
      { RootCAs := some { certs := ["rds-root-ca"] } } "evil-leaf" = false ∧
    (x509_NewCertPool.certs = [] ∧
      ∃ pool,
        (makeTLSConfig sampleWorld).value = some { RootCAs := some pool } ∧
        (∀ c, c ∈ pool.certs ↔ c ∈ sampleWorld.pemCerts [45, 45]) ∧
        ∀ (chainsTo : Cert → Cert → Bool) (hostRoots : List Cert) (leaf : Cert),
          (∀ c ∈ sampleWorld.pemCerts [45, 45], chainsTo leaf c = false) →
          serverTrusted chainsTo hostRoots { RootCAs := some pool } leaf = false) :=
  ⟨rfl, by decide, makeTLSConfig_roots sampleWorld [45, 45] rfl⟩

/-- C10: `makeTLSConfig` is ended by `log.Fatal` exactly when the read of
`global-bundle.pem` fails.  For a readable file in which no certificate is
found, `AppendCertsFromPEM` reports `false`, which is dropped: `makeTLSConfig`
returns a configuration with an empty root pool and the program goes on to call
`mongo.Connect` with it. -/
theorem makeTLSConfig_fatal_iff_read_fails (w : World) :
    ((makeTLSConfig w).value = none ↔ ∃ e, w.readFile "global-bundle.pem" = .error e) ∧
    ∀ b, w.readFile "global-bundle.pem" = .ok b → w.pemCerts b = [] →
      (x509_NewCertPool.AppendCertsFromPEM w.pemCerts b).2 = false ∧
      (makeTLSConfig w).value = some { RootCAs := some { certs := [] } } ∧
      (∃ opts, Event.connect opts ∈ (connectWithAWSIdentity w).trace ∧
        opts.TLSConfig = some { RootCAs := some { certs := [] } }) ∧
      ∀ identity, w.loadDefaultConfig = none → w.getCallerIdentity = .ok identity →
        ∃ opts, Event.connect opts ∈ (main w).trace ∧
          opts.TLSConfig = some { RootCAs := some { certs := [] } } := by
  constructor
  · rcases h : w.readFile "global-bundle.pem" with e | b
    · simp [makeTLSConfig_read_error w e h]
    · simp [makeTLSConfig_ok w b h]
  · intro b h hempty
    have hpool : (x509_NewCertPool.AppendCertsFromPEM w.pemCerts b).1 = { certs := [] } := by
      simp [CertPool.AppendCertsFromPEM, hempty, x509_NewCertPool]
    have hopts : (specOptions w b).TLSConfig = some { RootCAs := some { certs := [] } } := by
      simp [specOptions, hpool]
    obtain ⟨-, hmem, -, -⟩ := connect_trace_filters w b h
    refine ⟨by simp [CertPool.AppendCertsFromPEM, hempty], ?_, ⟨_, hmem, hopts⟩, ?_⟩
    · rw [makeTLSConfig_ok w b h, hpool]
    · intro identity h1 h2
      refine ⟨specOptions w b, ?_, hopts⟩
      rw [main_eq, printAWSIdentity_ok w identity h1 h2]
      simp only [Proc.bind, List.mem_append]
      exact Or.inr hmem

/-- Witness for C10: the sample world with an empty bundle file. -/
theorem makeTLSConfig_fatal_iff_read_fails_witness :
    (x509_NewCertPool.AppendCertsFromPEM emptyBundleWorld.pemCerts []).2 = false ∧
    (makeTLSConfig emptyBundleWorld).value = some { RootCAs := some { certs := [] } } ∧
    (∃ opts, Event.connect opts ∈ (connectWithAWSIdentity emptyBundleWorld).trace ∧
      opts.TLSConfig = some { RootCAs := some { certs := [] } }) ∧
    ∀ identity, emptyBundleWorld.loadDefaultConfig = none →
      emptyBundleWorld.getCallerIdentity = .ok identity →
      ∃ opts, Event.connect opts ∈ (main emptyBundleWorld).trace ∧
        opts.TLSConfig = some { RootCAs := some { certs := [] } } :=
  (makeTLSConfig_fatal_iff_read_fails emptyBundleWorld).2 [] rfl rfl

end Docdb
